/-
Verification of the drone-swarm simulation (ma360_drone_swarm).

Shallow embedding of the per-tick behavior engine:
  * rebuild/entity_classes/drone.py                          (Drone, namespace RebuildDrone)
  * rebuild/entity_classes/.ipynb_checkpoints/target-checkpoint.py
                                                             (Target, namespace RebuildTarget)
  * drone_swarm/entity_classes/.ipynb_checkpoints/drone-checkpoint.py
                                                             (Drone, namespace SwarmDrone)
  * drone_swarm/entity_classes/steering.py                   (boids, avoid_edges, namespace Steering)
  * rebuild/.ipynb_checkpoints/swarm_model-checkpoint.py     (counters, namespace Counters)

Python float arithmetic is embedded as exact real arithmetic; the external
spatial index (mesa ContinuousSpace.get_neighbors) is modelled by passing the
neighbor list as an argument; np.random draws are passed as explicit inputs.
-/
import Mathlib

open scoped Classical

noncomputable section

/-- Euclidean norm of a 2-vector, as computed by np.linalg.norm. -/
def rnorm (v : ℝ × ℝ) : ℝ := Real.sqrt (v.1 ^ 2 + v.2 ^ 2)

/-- np.arctan2: the quadrant-aware arctangent (bearing of the vector (x, y)). -/
def atan2 (y x : ℝ) : ℝ :=
  if 0 < x then Real.arctan (y / x)
  else if x < 0 ∧ 0 ≤ y then Real.arctan (y / x) + Real.pi
  else if x < 0 ∧ y < 0 then Real.arctan (y / x) - Real.pi
  else if x = 0 ∧ 0 < y then Real.pi / 2
  else if x = 0 ∧ y < 0 then -(Real.pi / 2)
  else 0

/-- Magnitude clamp used at the end of update_acceleration and update_velocity:
if the norm exceeds the bound, rescale the vector onto the bound
(`v *= bound / np.linalg.norm(v)`), otherwise leave it unchanged. -/
def clampVec (v : ℝ × ℝ) (bound : ℝ) : ℝ × ℝ :=
  if rnorm v > bound then ((bound / rnorm v) * v.1, (bound / rnorm v) * v.2) else v

/-- First element of the list attaining the minimal key: the semantics of
`distances.index(min(distances))` followed by indexing, used by every
nearest-neighbor query in the source. -/
def firstMinBy {α : Type} (f : α → ℝ) : List α → Option α
  | [] => none
  | a :: rest =>
    match firstMinBy f rest with
    | none => some a
    | some b => if f a ≤ f b then some a else some b

/-- Target liveness states (`all_states = ["alive", "dead"]`, and
`["defending", "dead"]` in the drone_swarm variant). -/
inductive TState
  | alive
  | dead
deriving DecidableEq

/-- An agent as returned by the spatial index's neighbor query: either a
target (position and liveness state) or a drone (position and velocity). -/
inductive Agent
  | targetA (pos : ℝ × ℝ) (state : TState)
  | droneA (pos : ℝ × ℝ) (vel : ℝ × ℝ)

/-- Position of an agent (`agent.pos`). -/
def Agent.apos : Agent → ℝ × ℝ
  | .targetA p _ => p
  | .droneA p _ => p

namespace RebuildTarget

/-- Target agent state, from rebuild target-checkpoint.py `__init__`:
position, weapon orientation angle, remaining cooldown, liveness state, and
the configured parameters read from `model.options`. -/
structure Target where
  pos : ℝ × ℝ
  direction : ℝ
  time_until_fire : ℝ
  state : TState
  vis_radius : ℝ
  weapon_range : ℝ
  fire_cooldown : ℝ
  omega_max : ℝ

/-- The drone members of a neighbor list (`isinstance(neighbor, Target): continue`). -/
def drones_only : List Agent → List Agent
  | [] => []
  | .targetA _ _ :: rest => drones_only rest
  | .droneA p v :: rest => .droneA p v :: drones_only rest

/-- `Target.get_nearest_drone`: among the neighbors within the visibility
radius (the list models `domain.get_neighbors(pos, vis_radius, False)`),
keep the drones and return the first one at minimal Euclidean distance. -/
def get_nearest_drone (tpos : ℝ × ℝ) (neighbors : List Agent) : Option Agent :=
  firstMinBy (fun a => rnorm ((Agent.apos a).1 - tpos.1, (Agent.apos a).2 - tpos.2))
    (drones_only neighbors)

/-- `Target.move`: dead targets return immediately; otherwise turn the weapon
toward the nearest visible drone.  The code compares the signed
`theta_diff / dt` against `omega_max` (no absolute value) and the slew branch
always adds `+omega_max * dt`. -/
def move (t : Target) (neighbors : List Agent) (dt : ℝ) : Target :=
  if t.state = TState.dead then t
  else
    match get_nearest_drone t.pos neighbors with
    | none => t
    | some nd =>
      let xn := (Agent.apos nd).1
      let yn := (Agent.apos nd).2
      let neighbor_angle := atan2 (yn - t.pos.2) (xn - t.pos.1)
      let theta_diff := neighbor_angle - t.direction
      let desired_omega := theta_diff / dt
      if desired_omega ≤ t.omega_max then { t with direction := neighbor_angle }
      else { t with direction := t.direction + t.omega_max * dt }

/-- `Target.fire`: decrement the cooldown while positive; otherwise acquire
the nearest visible drone and, if it is within weapon range and the angular
offset is within 1e-2, kill it (the returned Bool records `nearest_drone.die()`)
and reset the cooldown.  The code has no dead-state guard. -/
def fire (t : Target) (neighbors : List Agent) (dt : ℝ) : Target × Bool :=
  if t.time_until_fire > 0 then ({ t with time_until_fire := t.time_until_fire - dt }, false)
  else
    match get_nearest_drone t.pos neighbors with
    | none => (t, false)
    | some nd =>
      let xn := (Agent.apos nd).1
      let yn := (Agent.apos nd).2
      let nearest_drone_angle := atan2 (yn - t.pos.2) (xn - t.pos.1)
      let drone_distance := Real.sqrt ((xn - t.pos.1) ^ 2 + (yn - t.pos.2) ^ 2)
      if drone_distance > t.weapon_range then (t, false)
      else if |nearest_drone_angle - t.direction| > 1 / 100 then (t, false)
      else ({ t with time_until_fire := t.fire_cooldown }, true)

/-- `Target.get_hit(probability)`: the uniform draw `np.random.rand()` is the
explicit `draw` argument; on `draw ≤ probability` the target becomes dead
(the Bool records the hit, which also decrements `model.current_num_targets`). -/
def get_hit (t : Target) (probability draw : ℝ) : Target × Bool :=
  if draw ≤ probability then ({ t with state := TState.dead }, true) else (t, false)

end RebuildTarget

/-- The tracking rule as the claim states it: snap to the bearing when
`|Δθ| ≤ ω_max·dt`, otherwise rotate by `±ω_max·dt` with the sign of `Δθ`.
Written from the claim's words, for comparison with `RebuildTarget.move`. -/
def trackSpec (direction omega dt bearing : ℝ) : ℝ :=
  if |bearing - direction| ≤ omega * dt then bearing
  else direction + (if 0 ≤ bearing - direction then omega * dt else -(omega * dt))

/-- Python float modulus `a % b` (for positive `b`), used by the torus
coordinate adjustment of mesa's ContinuousSpace. -/
def fmod (a b : ℝ) : ℝ := a - b * (⌊a / b⌋ : ℝ)

namespace RebuildDrone

/-- Drone states of rebuild drone.py (`all_states = ["flocking", "retreating"]`). -/
inductive DState
  | flocking
  | retreating
deriving DecidableEq

/-- Drone agent state, from rebuild drone.py `__init__`: kinematic state,
engagement state and the configured parameters.  The steering weights are the
constant array [1, 1, 1, 1, 1] and are never modified. -/
structure Drone where
  pos : ℝ × ℝ
  velocity : ℝ × ℝ
  acceleration : ℝ × ℝ
  state : DState
  vis_radius : ℝ
  weapon_radius : ℝ
  max_velocity : ℝ
  max_acceleration : ℝ
  accuracy : ℝ

/-- rebuild drone.py `__init__`: initial velocity and acceleration both point
along the random initial direction with magnitudes max_velocity and
max_acceleration; the drone starts flocking. -/
def init (p : ℝ × ℝ) (initial_direction visR wR maxV maxA accu : ℝ) : Drone :=
  { pos := p
    velocity := (Real.cos initial_direction * maxV, Real.sin initial_direction * maxV)
    acceleration := (Real.cos initial_direction * maxA, Real.sin initial_direction * maxA)
    state := DState.flocking
    vis_radius := visR
    weapon_radius := wR
    max_velocity := maxV
    max_acceleration := maxA
    accuracy := accu }

/-- The neighbors that are living targets (`isinstance(neighbor, Drone): continue`,
`neighbor.state == neighbor.all_states[1]: continue`). -/
def living_targets : List Agent → List Agent
  | [] => []
  | .droneA _ _ :: rest => living_targets rest
  | .targetA p st :: rest =>
    if st = TState.dead then living_targets rest else .targetA p st :: living_targets rest

/-- `Drone.get_nearest_target`: among the neighbors within the visibility
radius, keep the living targets and return the first one at minimal
Euclidean distance. -/
def get_nearest_target (dpos : ℝ × ℝ) (neighbors : List Agent) : Option Agent :=
  firstMinBy (fun a => rnorm ((Agent.apos a).1 - dpos.1, (Agent.apos a).2 - dpos.2))
    (living_targets neighbors)

/-- `Drone.update_position`: `domain.move_agent(self, pos + dt * velocity)`;
the rebuild model constructs its ContinuousSpace with `torus=True`, so the
new coordinates are wrapped into the domain. -/
def update_position (d : Drone) (W H dt : ℝ) : Drone :=
  { d with pos := (fmod (d.pos.1 + dt * d.velocity.1) W, fmod (d.pos.2 + dt * d.velocity.2) H) }

/-- `Drone.update_acceleration`: the five steering vectors (computed by the
steering engine from the neighborhood, here passed as inputs) are combined
with the constant weights [1, 1, 1, 1, 1], divided by the weight sum, then
clamped to max_acceleration. -/
def update_acceleration (d : Drone) (s0 s1 s2 s3 s4 : ℝ × ℝ) : Drone :=
  let combined := (1 / (1 + 1 + 1 + 1 + 1)) • (1 • s0 + 1 • s1 + 1 • s2 + 1 • s3 + 1 • s4)
  { d with acceleration := clampVec combined d.max_acceleration }

/-- `Drone.update_velocity`: `velocity += acceleration * dt`, then clamp to
max_velocity. -/
def update_velocity (d : Drone) (dt : ℝ) : Drone :=
  { d with velocity := clampVec (d.velocity + dt • d.acceleration) d.max_velocity }

/-- The distance to a prospective target computed inside `Drone.fire`
(`np.sqrt((xt-xs)**2 + (yt-ys)**2)`). -/
def target_distance (d : Drone) (tpos : ℝ × ℝ) : ℝ :=
  Real.sqrt ((tpos.1 - d.pos.1) ^ 2 + (tpos.2 - d.pos.2) ^ 2)

/-- `Drone.fire`: a retreating drone returns immediately; otherwise, if a
living target is visible and within weapon_radius, the drone calls
`target.get_hit(accuracy)` (an effect on the target, independent of the
drone's own transition), sets its state to retreating and decrements the
model's armed counter.  The Bool records whether the shot was taken. -/
def fire (d : Drone) (neighbors : List Agent) : Drone × Bool :=
  if d.state = DState.retreating then (d, false)
  else
    match get_nearest_target d.pos neighbors with
    | none => (d, false)
    | some t =>
      if target_distance d (Agent.apos t) > d.weapon_radius then (d, false)
      else ({ d with state := DState.retreating }, true)

/-- The per-tick inputs a drone's step consumes from the rest of the model:
domain extents and dt, the five steering vectors, and the neighbor list. -/
structure RInput where
  W : ℝ
  H : ℝ
  dt : ℝ
  s0 : ℝ × ℝ
  s1 : ℝ × ℝ
  s2 : ℝ × ℝ
  s3 : ℝ × ℝ
  s4 : ℝ × ℝ
  neighbors : List Agent

/-- `Drone.step`: update_position, update_acceleration, update_velocity,
fire, in that order. -/
def step (d : Drone) (i : RInput) : Drone × Bool :=
  fire (update_velocity (update_acceleration (update_position d i.W i.H i.dt)
    i.s0 i.s1 i.s2 i.s3 i.s4) i.dt) i.neighbors

/-- `n` consecutive steps under the input stream `ins`. -/
def stepN (ins : ℕ → RInput) : ℕ → Drone → Drone
  | 0, d => d
  | n + 1, d => (step (stepN ins n d) (ins n)).1

end RebuildDrone

namespace SwarmDrone

/-- Drone states of drone_swarm drone-checkpoint.py
(`all_states = ["flocking", "retreating", "returned"]`). -/
inductive DState
  | flocking
  | retreating
  | returned
deriving DecidableEq

/-- Drone agent state, from drone_swarm drone-checkpoint.py `__init__`:
kinematic state, engagement state, the five steering weights
(initially [1, .7, 1.05, 1.2, 1]) and the configured parameters. -/
structure Drone where
  pos : ℝ × ℝ
  velocity : ℝ × ℝ
  acceleration : ℝ × ℝ
  state : DState
  w0 : ℝ
  w1 : ℝ
  w2 : ℝ
  w3 : ℝ
  w4 : ℝ
  vis_range : ℝ
  weapon_range : ℝ
  max_accuracy : ℝ
  max_velocity : ℝ
  max_acceleration : ℝ

/-- The candidate position `pos + dt * velocity` computed by update_position. -/
def next_position (d : Drone) (dt : ℝ) : ℝ × ℝ :=
  (d.pos.1 + dt * d.velocity.1, d.pos.2 + dt * d.velocity.2)

/-- The boundary test of update_position:
`next_x > width or next_x < 0 or next_y > height or next_y < 0`. -/
def outOfBounds (W H : ℝ) (p : ℝ × ℝ) : Prop :=
  p.1 > W ∨ p.1 < 0 ∨ p.2 > H ∨ p.2 < 0

/-- `Drone.update_position`: if the candidate position is out of bounds the
drone's state becomes "returned" and it does not move; otherwise it is placed
at the candidate position. -/
def update_position (d : Drone) (W H dt : ℝ) : Drone :=
  if outOfBounds W H (next_position d dt) then { d with state := DState.returned }
  else { d with pos := next_position d dt }

/-- `Drone.update_acceleration`: weighted combination of the five steering
vectors (passed as inputs) using the drone's mutable weights, divided by
their sum, then clamped to max_acceleration. -/
def update_acceleration (d : Drone) (s0 s1 s2 s3 s4 : ℝ × ℝ) : Drone :=
  let combined :=
    (1 / (d.w0 + d.w1 + d.w2 + d.w3 + d.w4)) •
      (d.w0 • s0 + d.w1 • s1 + d.w2 • s2 + d.w3 • s3 + d.w4 • s4)
  { d with acceleration := clampVec combined d.max_acceleration }

/-- `Drone.update_velocity`: `velocity += acceleration * dt`, clamped to
max_velocity. -/
def update_velocity (d : Drone) (dt : ℝ) : Drone :=
  { d with velocity := clampVec (d.velocity + dt • d.acceleration) d.max_velocity }

/-- `Drone.fire`: a retreating drone does not fire; otherwise, if the model's
single target is within weapon_range, the drone calls `target.get_hit` with a
distance-scaled probability (an effect on the target), negates its
edge-avoidance and target-seeking weights and becomes retreating.  The Bool
records whether the shot was taken. -/
def fire (d : Drone) (targetPos : ℝ × ℝ) : Drone × Bool :=
  if d.state = DState.retreating then (d, false)
  else
    let distance := rnorm (targetPos.1 - d.pos.1, targetPos.2 - d.pos.2)
    if distance > d.weapon_range then (d, false)
    else ({ d with w3 := -d.w3, w4 := -d.w4, state := DState.retreating }, true)

/-- The per-tick inputs a drone_swarm drone's step consumes: domain extents,
dt, the five steering vectors and the target's position. -/
structure SInput where
  W : ℝ
  H : ℝ
  dt : ℝ
  s0 : ℝ × ℝ
  s1 : ℝ × ℝ
  s2 : ℝ × ℝ
  s3 : ℝ × ℝ
  s4 : ℝ × ℝ
  targetPos : ℝ × ℝ

/-- `Drone.step`: update_position first; if the drone has "returned" it dies
(removal, modelled by `none`) and the model's `n_drones_returned` counter is
incremented (the Bool); otherwise update_acceleration, update_velocity and
fire run in order. -/
def step (d : Drone) (i : SInput) : Option Drone × Bool :=
  let d1 := update_position d i.W i.H i.dt
  if d1.state = DState.returned then (none, true)
  else
    let d2 := update_acceleration d1 i.s0 i.s1 i.s2 i.s3 i.s4
    let d3 := update_velocity d2 i.dt
    (some (fire d3 i.targetPos).1, false)

/-- `n` consecutive steps under the input stream `ins`; `none` once the drone
has been removed. -/
def stepN (ins : ℕ → SInput) : ℕ → Drone → Option Drone
  | 0, d => some d
  | n + 1, d =>
    match stepN ins n d with
    | none => none
    | some x => (step x (ins n)).1

end SwarmDrone

namespace Steering

/-- `avoid_edges` (drone_swarm steering.py, identical in the rebuild
checkpoint): accumulate a repulsive desired velocity for each of the four
boundaries whose guard fires, counting the active boundaries; if any is
active, average by the count, rescale to max_velocity and subtract the
drone's velocity.  The top-boundary guard compares `y` against
`domain.width - margin_y`, exactly as in the source. -/
def avoid_edges (W H vis_range max_velocity : ℝ) (pos vel : ℝ × ℝ) : ℝ × ℝ :=
  let margin_x := W * (75 / 1000)
  let margin_y := H * (75 / 1000)
  let x := pos.1
  let y := pos.2
  let dv0 : ℝ × ℝ := (0, 0)
  let p1 := if x < vis_range ∧ x < margin_x then ((dv0.1 + 1 / x, dv0.2), 1) else (dv0, 0)
  let p2 :=
    if x > W - vis_range ∧ x > W - margin_x then (((p1.1).1 - 1 / (W - x), (p1.1).2), p1.2 + 1)
    else p1
  let p3 :=
    if y < vis_range ∧ y < margin_y then (((p2.1).1, (p2.1).2 + 1 / y), p2.2 + 1)
    else p2
  let p4 :=
    if y > H - vis_range ∧ y > W - margin_y then (((p3.1).1, (p3.1).2 - 1 / (H - y)), p3.2 + 1)
    else p3
  let influences : ℕ := p4.2
  if influences > 0 then
    let dv := ((influences : ℝ))⁻¹ • p4.1
    let dv2 := (max_velocity / rnorm dv) • dv
    (dv2.1 - vel.1, dv2.2 - vel.2)
  else (0, 0)

/-- The activation condition the claim states for the top boundary: the drone
is within its visibility radius of the top edge and within a margin of 7.5%
of the domain height of it.  Written from the claim's words, for comparison
with `avoid_edges`. -/
def topActiveSpec (W H vis_range : ℝ) (pos : ℝ × ℝ) : Prop :=
  pos.2 > H - vis_range ∧ pos.2 > H - H * (75 / 1000)

/-- The running accumulator of the `boids` neighbor loop: the summed neighbor
velocities, summed neighbor positions, summed unit vectors from each neighbor
to the drone, and the neighbor count. -/
structure BAcc where
  align : ℝ × ℝ
  com : ℝ × ℝ
  avg : ℝ × ℝ
  n : ℕ

/-- The neighbor loop of `boids`: targets are skipped; every drone neighbor
contributes its velocity to the alignment sum, its position to the
center-of-mass sum, and its distance-normalized direction to the separation
sum. -/
def boidsAccum (dpos : ℝ × ℝ) : List Agent → BAcc
  | [] => { align := (0, 0), com := (0, 0), avg := (0, 0), n := 0 }
  | .targetA _ _ :: rest => boidsAccum dpos rest
  | .droneA p v :: rest =>
    let acc := boidsAccum dpos rest
    let distance := rnorm (p.1 - dpos.1, p.2 - dpos.2)
    { align := acc.align + v
      com := acc.com + p
      avg := acc.avg + (distance⁻¹ • (dpos.1 - p.1, dpos.2 - p.2))
      n := acc.n + 1 }

/-- `boids` (drone_swarm steering.py, identical in the rebuild checkpoint):
after the neighbor loop, the single guard
`n_neighbors > 0 and np.linalg.norm(alignment_steering) != 0` protects all
three computations; when it fails, all three contributions stay zero. -/
def boids (dpos dvel : ℝ × ℝ) (max_velocity : ℝ) (neighbors : List Agent) :
    (ℝ × ℝ) × (ℝ × ℝ) × (ℝ × ℝ) :=
  let a := boidsAccum dpos neighbors
  if a.n > 0 ∧ rnorm a.align ≠ 0 then
    let al1 := ((a.n : ℝ))⁻¹ • a.align
    let al2 := (max_velocity / rnorm al1) • al1
    let alignment := (al2.1 - dvel.1, al2.2 - dvel.2)
    let com1 := ((a.n : ℝ))⁻¹ • a.com
    let com_direction := (com1.1 - dpos.1, com1.2 - dpos.2)
    let distance_to_com := rnorm com_direction
    let com2 := if distance_to_com > 0 then (max_velocity / distance_to_com) • com_direction
      else com_direction
    let cohesion := (com2.1 - dvel.1, com2.2 - dvel.2)
    let av1 := ((a.n : ℝ))⁻¹ • a.avg
    let av2 := if rnorm av1 > 0 then (max_velocity / rnorm av1) • av1 else av1
    let separation := (av2.1 - dvel.1, av2.2 - dvel.2)
    (alignment, cohesion, separation)
  else ((0, 0), (0, 0), (0, 0))

/-- Sum of the velocities of the drone neighbors in a neighbor list. -/
def velSum : List Agent → ℝ × ℝ
  | [] => (0, 0)
  | .targetA _ _ :: rest => velSum rest
  | .droneA _ v :: rest => v + velSum rest

/-- Number of drone neighbors in a neighbor list. -/
def countDrones : List Agent → ℕ
  | [] => 0
  | .targetA _ _ :: rest => countDrones rest
  | .droneA _ _ :: rest => countDrones rest + 1

end Steering

namespace Counters

/-- The lifecycle state of a drone as seen by the model's counters. -/
inductive DStatus
  | flocking
  | retreating
  | removed
deriving DecidableEq

/-- The model-level counter state of rebuild swarm_model-checkpoint.py:
the drone population and the counters `current_num_drones` and
`current_num_armed_drones`. -/
structure CState where
  drones : List DStatus
  numDrones : ℤ
  armed : ℤ

/-- The two counter-mutating drone lifecycle events: a drone completes
`Drone.fire` (it had a living target in range), or a target's shot calls
`Drone.die` on it. -/
inductive Ev
  | fireEv (i : ℕ)
  | dieEv (i : ℕ)

/-- Number of drones with the given status. -/
def countS (st : DStatus) : List DStatus → ℕ
  | [] => 0
  | d :: rest => (if d = st then 1 else 0) + countS st rest

/-- Event semantics, from rebuild drone.py.  `fire` transitions a flocking
drone to retreating and decrements `current_num_armed_drones` (a retreating
drone returns before reaching that line; a removed drone is no longer
scheduled).  `die` removes a living drone from the domain and schedule,
decrements `current_num_drones`, and decrements
`current_num_armed_drones` only if the drone's state is not retreating. -/
def applyEv (s : CState) : Ev → CState
  | .fireEv i =>
    match s.drones[i]? with
    | some DStatus.flocking =>
      { drones := s.drones.set i DStatus.retreating
        numDrones := s.numDrones
        armed := s.armed - 1 }
    | _ => s
  | .dieEv i =>
    match s.drones[i]? with
    | some DStatus.flocking =>
      { drones := s.drones.set i DStatus.removed
        numDrones := s.numDrones - 1
        armed := s.armed - 1 }
    | some DStatus.retreating =>
      { drones := s.drones.set i DStatus.removed
        numDrones := s.numDrones - 1
        armed := s.armed }
    | _ => s

/-- rebuild swarm_model-checkpoint.py `__init__`: all drones start flocking,
and both counters start at the initial drone count. -/
def initC (n : ℕ) : CState :=
  { drones := List.replicate n DStatus.flocking, numDrones := (n : ℤ), armed := (n : ℤ) }

/-- The counter state after a sequence of lifecycle events of a run. -/
def runC (n : ℕ) (evs : List Ev) : CState :=
  evs.foldl applyEv (initC n)

/-- The counter invariant: `current_num_armed_drones` is the number of living
flocking drones and `current_num_drones` is the number of living drones. -/
def counterInv (s : CState) : Prop :=
  s.armed = (countS DStatus.flocking s.drones : ℤ) ∧
    s.numDrones = (countS DStatus.flocking s.drones : ℤ) + (countS DStatus.retreating s.drones : ℤ)

end Counters

/-! ### Helper lemmas -/

theorem rnorm_nonneg (v : ℝ × ℝ) : 0 ≤ rnorm v := Real.sqrt_nonneg _

theorem rnorm_zero : rnorm ((0 : ℝ), (0 : ℝ)) = 0 := by
  simp [rnorm]

theorem rnorm_scale (c x y : ℝ) : rnorm (c * x, c * y) = |c| * rnorm (x, y) := by
  unfold rnorm
  rw [show (c * x) ^ 2 + (c * y) ^ 2 = c ^ 2 * (x ^ 2 + y ^ 2) by ring,
    Real.sqrt_mul (sq_nonneg c), Real.sqrt_sq_eq_abs]

theorem rnorm_scale' (c x y : ℝ) : rnorm (x * c, y * c) = |c| * rnorm (x, y) := by
  rw [mul_comm x c, mul_comm y c, rnorm_scale]

theorem sqrt_100 : Real.sqrt 100 = 10 := by
  rw [show (100 : ℝ) = 10 ^ 2 by norm_num, Real.sqrt_sq (by norm_num : (0:ℝ) ≤ 10)]

theorem clampVec_le (v : ℝ × ℝ) (m : ℝ) (hm : 0 ≤ m) : rnorm (clampVec v m) ≤ m := by
  by_cases h : rnorm v > m
  · have hv : 0 < rnorm v := lt_of_le_of_lt hm h
    have : rnorm (clampVec v m) = m := by
      rw [clampVec, if_pos h, rnorm_scale, show ((v.1, v.2) : ℝ × ℝ) = v from rfl,
        abs_of_nonneg (div_nonneg hm (le_of_lt hv)), div_mul_cancel₀ _ (ne_of_gt hv)]
    rw [this]
  · rw [clampVec, if_neg h]
    exact not_lt.mp h

/-! ### C7 — zero accuracy -/

/-- C7 counterexample: `Target.get_hit` compares the uniform draw with `≤`, so
with probability 0 a draw of exactly 0 (a possible value of np.random.rand)
still marks the living target dead. -/
theorem c7_counterexample :
    (RebuildTarget.get_hit
      { pos := (0, 0), direction := 0, time_until_fire := 2, state := TState.alive,
        vis_radius := 1000, weapon_range := 400, fire_cooldown := 2, omega_max := 45 }
      0 0).1.state = TState.dead := by
  rw [RebuildTarget.get_hit, if_pos le_rfl]

/-- C7 (amended): with accuracy 0, for every sequence of uniform draws that
are all strictly positive, no sequence of fire attempts ever changes the
target's state; the only exception is a draw of exactly 0. -/
theorem c7_zero_accuracy_no_kill (t : RebuildTarget.Target) (draws : List ℝ)
    (hpos : ∀ x ∈ draws, 0 < x) :
    (draws.foldl (fun s dr => (RebuildTarget.get_hit s 0 dr).1) t).state = t.state := by
  induction draws generalizing t with
  | nil => rfl
  | cons a rest ih =>
    have ha : ¬(a ≤ 0) := not_le.mpr (hpos a (by simp))
    have h1 : (RebuildTarget.get_hit t 0 a).1 = t := by
      rw [RebuildTarget.get_hit, if_neg ha]
    simp only [List.foldl_cons, h1]
    exact ih t (fun x hx => hpos x (by simp [hx]))

/-- Witness for C7: two positive draws against a living target leave it alive. -/
theorem c7_witness :
    (([1, 1/2] : List ℝ).foldl (fun s dr => (RebuildTarget.get_hit s 0 dr).1)
      { pos := (0, 0), direction := 0, time_until_fire := 2, state := TState.alive,
        vis_radius := 1000, weapon_range := 400, fire_cooldown := 2,
        omega_max := 45 }).state = TState.alive := by
  have h := c7_zero_accuracy_no_kill
    { pos := (0, 0), direction := 0, time_until_fire := 2, state := TState.alive,
      vis_radius := 1000, weapon_range := 400, fire_cooldown := 2, omega_max := 45 }
    [1, 1/2] (by intro x hx; simp at hx; rcases hx with rfl | rfl <;> norm_num)
  exact h

/-! ### C9 — armed-drone counter -/

namespace Counters

theorem countS_replicate (st b : DStatus) (n : ℕ) :
    countS st (List.replicate n b) = if b = st then n else 0 := by
  induction n with
  | zero => simp [countS]
  | succ k ih =>
    rw [List.replicate_succ]
    simp only [countS, ih]
    split <;> omega

theorem countS_set (l : List DStatus) (i : ℕ) (b a st : DStatus) (h : l[i]? = some b) :
    countS st (l.set i a) + (if b = st then 1 else 0)
      = countS st l + (if a = st then 1 else 0) := by
  induction l generalizing i with
  | nil => simp at h
  | cons c rest ih =>
    cases i with
    | zero =>
      simp only [List.getElem?_cons_zero] at h
      injection h with h
      subst h
      simp only [List.set, countS]
      ring
    | succ j =>
      simp only [List.getElem?_cons_succ] at h
      have := ih j h
      simp only [List.set, countS]
      omega

theorem applyEv_inv (s : CState) (e : Ev) (hs : counterInv s) : counterInv (applyEv s e) := by
  obtain ⟨h1, h2⟩ := hs
  cases e with
  | fireEv i =>
    rcases hg : s.drones[i]? with _ | b
    · simpa only [counterInv, applyEv, hg] using ⟨h1, h2⟩
    · cases b with
      | flocking =>
        have hf := countS_set s.drones i DStatus.flocking DStatus.retreating DStatus.flocking hg
        have hr := countS_set s.drones i DStatus.flocking DStatus.retreating DStatus.retreating hg
        simp at hf hr
        constructor <;> simp only [applyEv, hg] <;> omega
      | retreating => simpa only [counterInv, applyEv, hg] using ⟨h1, h2⟩
      | removed => simpa only [counterInv, applyEv, hg] using ⟨h1, h2⟩
  | dieEv i =>
    rcases hg : s.drones[i]? with _ | b
    · simpa only [counterInv, applyEv, hg] using ⟨h1, h2⟩
    · cases b with
      | flocking =>
        have hf := countS_set s.drones i DStatus.flocking DStatus.removed DStatus.flocking hg
        have hr := countS_set s.drones i DStatus.flocking DStatus.removed DStatus.retreating hg
        simp at hf hr
        constructor <;> simp only [applyEv, hg] <;> omega
      | retreating =>
        have hf := countS_set s.drones i DStatus.retreating DStatus.removed DStatus.flocking hg
        have hr := countS_set s.drones i DStatus.retreating DStatus.removed DStatus.retreating hg
        simp at hf hr
        constructor <;> simp only [applyEv, hg] <;> omega
      | removed => simpa only [counterInv, applyEv, hg] using ⟨h1, h2⟩

theorem foldl_applyEv_inv (evs : List Ev) :
    ∀ s : CState, counterInv s → counterInv (evs.foldl applyEv s) := by
  induction evs with
  | nil => exact fun s hs => hs
  | cons e rest ih => exact fun s hs => ih (applyEv s e) (applyEv_inv s e hs)

end Counters

/-- C9: after any sequence of drone lifecycle events, the armed counter equals
the number of living flocking drones, the drone counter equals the number of
living drones, and hence `0 ≤ current_num_armed_drones ≤ current_num_drones`. -/
theorem c9_armed_counter_invariant (n : ℕ) (evs : List Counters.Ev) :
    Counters.counterInv (Counters.runC n evs) ∧
    0 ≤ (Counters.runC n evs).armed ∧
    (Counters.runC n evs).armed ≤ (Counters.runC n evs).numDrones := by
  have hinit : Counters.counterInv (Counters.initC n) := by
    constructor <;>
      simp [Counters.initC, Counters.countS_replicate]
  have h := Counters.foldl_applyEv_inv evs (Counters.initC n) hinit
  obtain ⟨h1, h2⟩ := h
  refine ⟨⟨h1, h2⟩, ?_, ?_⟩ <;> unfold Counters.runC <;> omega

/-- Witness for C9: two drones, the first of which fires. -/
theorem c9_witness :
    0 ≤ (Counters.runC 2 [Counters.Ev.fireEv 0]).armed ∧
    (Counters.runC 2 [Counters.Ev.fireEv 0]).armed
      ≤ (Counters.runC 2 [Counters.Ev.fireEv 0]).numDrones :=
  ⟨(c9_armed_counter_invariant 2 [Counters.Ev.fireEv 0]).2.1,
    (c9_armed_counter_invariant 2 [Counters.Ev.fireEv 0]).2.2⟩

/-! ### C10 — the boids guard -/

theorem boidsAccum_align (dpos : ℝ × ℝ) (ns : List Agent) :
    (Steering.boidsAccum dpos ns).align = Steering.velSum ns := by
  induction ns with
  | nil => rfl
  | cons a rest ih =>
    cases a with
    | targetA p st => simpa only [Steering.boidsAccum, Steering.velSum] using ih
    | droneA p v =>
      simp only [Steering.boidsAccum, Steering.velSum, ih]
      exact add_comm _ _

theorem boidsAccum_n (dpos : ℝ × ℝ) (ns : List Agent) :
    (Steering.boidsAccum dpos ns).n = Steering.countDrones ns := by
  induction ns with
  | nil => rfl
  | cons a rest ih =>
    cases a with
    | targetA p st => simpa only [Steering.boidsAccum, Steering.countDrones] using ih
    | droneA p v => simp only [Steering.boidsAccum, Steering.countDrones, ih]

/-- C10: when a drone has at least one drone neighbor but the neighbors'
velocities sum to the zero vector, the single guard
`n_neighbors > 0 and norm(alignment_steering) != 0` fails, so `boids` returns
zero for all three contributions (alignment, cohesion, and separation). -/
theorem c10_zero_alignment_suppresses_all (dpos dvel : ℝ × ℝ) (maxV : ℝ) (ns : List Agent)
    (hne : 0 < Steering.countDrones ns) (hsum : Steering.velSum ns = (0, 0)) :
    Steering.boids dpos dvel maxV ns = ((0, 0), (0, 0), (0, 0)) := by
  have hal : rnorm (Steering.boidsAccum dpos ns).align = 0 := by
    rw [boidsAccum_align, hsum]
    exact rnorm_zero
  rw [Steering.boids, if_neg]
  intro hcon
  exact hcon.2 hal

/-- Witness for C10: one drone neighbor with zero velocity. -/
theorem c10_witness :
    0 < Steering.countDrones [Agent.droneA (1, 0) (0, 0)] ∧
    Steering.boids (0, 0) (3, 4) 50 [Agent.droneA (1, 0) (0, 0)]
      = ((0, 0), (0, 0), (0, 0)) := by
  have hne : 0 < Steering.countDrones [Agent.droneA (1, 0) (0, 0)] := by
    simp [Steering.countDrones]
  refine ⟨hne, c10_zero_alignment_suppresses_all (0, 0) (3, 4) 50 _ hne ?_⟩
  simp [Steering.velSum]

/-! ### C8 — edge avoidance, top boundary -/

/-- C8: with domain width 200, height 100, visibility radius 100 and the
drone at (100, 95) — 5 m below the top edge, well within 7.5% of the domain
height — the claim's activation condition for the top boundary holds, yet
`avoid_edges` adds no contribution at all (the code's top-boundary margin
test compares y against `width - margin_y`, not `height - margin_y`) and
returns the zero steering vector. -/
theorem c8_top_margin_uses_width :
    Steering.topActiveSpec 200 100 100 (100, 95) ∧
    Steering.avoid_edges 200 100 100 50 (100, 95) (0, 0) = (0, 0) := by
  constructor
  · constructor <;> norm_num [Steering.topActiveSpec]
  · rw [Steering.avoid_edges]
    norm_num

/-! ### C5 — kinematic clamps -/

namespace RebuildDrone

theorem fire_fields (d : Drone) (ns : List Agent) :
    (fire d ns).1.velocity = d.velocity ∧ (fire d ns).1.acceleration = d.acceleration ∧
    (fire d ns).1.max_velocity = d.max_velocity ∧
    (fire d ns).1.max_acceleration = d.max_acceleration := by
  unfold fire
  split
  · exact ⟨rfl, rfl, rfl, rfl⟩
  · split
    · exact ⟨rfl, rfl, rfl, rfl⟩
    · split
      · exact ⟨rfl, rfl, rfl, rfl⟩
      · exact ⟨rfl, rfl, rfl, rfl⟩

theorem step_max_fields (d : Drone) (i : RInput) :
    (step d i).1.max_velocity = d.max_velocity ∧
    (step d i).1.max_acceleration = d.max_acceleration := by
  have h := fire_fields (update_velocity (update_acceleration (update_position d i.W i.H i.dt)
    i.s0 i.s1 i.s2 i.s3 i.s4) i.dt) i.neighbors
  exact ⟨h.2.2.1, h.2.2.2⟩

theorem stepN_max_fields (ins : ℕ → RInput) (n : ℕ) (d : Drone) :
    (stepN ins n d).max_velocity = d.max_velocity ∧
    (stepN ins n d).max_acceleration = d.max_acceleration := by
  induction n with
  | zero => exact ⟨rfl, rfl⟩
  | succ k ih =>
    have h := step_max_fields (stepN ins k d) (ins k)
    exact ⟨h.1.trans ih.1, h.2.trans ih.2⟩

theorem step_clamped (d : Drone) (i : RInput)
    (hV : 0 ≤ d.max_velocity) (hA : 0 ≤ d.max_acceleration) :
    rnorm (step d i).1.velocity ≤ d.max_velocity ∧
    rnorm (step d i).1.acceleration ≤ d.max_acceleration := by
  have h := fire_fields (update_velocity (update_acceleration (update_position d i.W i.H i.dt)
    i.s0 i.s1 i.s2 i.s3 i.s4) i.dt) i.neighbors
  constructor
  · show rnorm (fire (update_velocity (update_acceleration (update_position d i.W i.H i.dt)
      i.s0 i.s1 i.s2 i.s3 i.s4) i.dt) i.neighbors).1.velocity ≤ d.max_velocity
    rw [h.1]
    exact clampVec_le _ _ hV
  · show rnorm (fire (update_velocity (update_acceleration (update_position d i.W i.H i.dt)
      i.s0 i.s1 i.s2 i.s3 i.s4) i.dt) i.neighbors).1.acceleration ≤ d.max_acceleration
    rw [h.2.1]
    exact clampVec_le _ _ hA

theorem init_velocity_norm (p : ℝ × ℝ) (θ visR wR maxV maxA accu : ℝ) (hV : 0 ≤ maxV) :
    rnorm (init p θ visR wR maxV maxA accu).velocity = maxV := by
  show rnorm (Real.cos θ * maxV, Real.sin θ * maxV) = maxV
  rw [rnorm_scale' maxV (Real.cos θ) (Real.sin θ), abs_of_nonneg hV]
  unfold rnorm
  rw [Real.cos_sq_add_sin_sq, Real.sqrt_one, mul_one]

theorem init_acceleration_norm (p : ℝ × ℝ) (θ visR wR maxV maxA accu : ℝ) (hA : 0 ≤ maxA) :
    rnorm (init p θ visR wR maxV maxA accu).acceleration = maxA := by
  show rnorm (Real.cos θ * maxA, Real.sin θ * maxA) = maxA
  rw [rnorm_scale' maxA (Real.cos θ) (Real.sin θ), abs_of_nonneg hA]
  unfold rnorm
  rw [Real.cos_sq_add_sin_sq, Real.sqrt_one, mul_one]

end RebuildDrone

/-- C5: starting from `__init__`'s kinematic state, for every tick count `n`
and every stream of steering inputs, the drone's velocity magnitude stays at
most max_velocity and its acceleration magnitude at most max_acceleration:
the clamps at the end of update_velocity and update_acceleration preserve the
invariant from the initial state onward. -/
theorem c5_kinematic_clamps (p : ℝ × ℝ) (θ visR wR maxV maxA accu : ℝ)
    (hV : 0 ≤ maxV) (hA : 0 ≤ maxA) (ins : ℕ → RebuildDrone.RInput) (n : ℕ) :
    rnorm (RebuildDrone.stepN ins n (RebuildDrone.init p θ visR wR maxV maxA accu)).velocity
        ≤ maxV ∧
    rnorm (RebuildDrone.stepN ins n (RebuildDrone.init p θ visR wR maxV maxA accu)).acceleration
        ≤ maxA := by
  cases n with
  | zero =>
    constructor
    · exact le_of_eq (RebuildDrone.init_velocity_norm p θ visR wR maxV maxA accu hV)
    · exact le_of_eq (RebuildDrone.init_acceleration_norm p θ visR wR maxV maxA accu hA)
  | succ k =>
    have hm := RebuildDrone.stepN_max_fields ins k (RebuildDrone.init p θ visR wR maxV maxA accu)
    have h := RebuildDrone.step_clamped
      (RebuildDrone.stepN ins k (RebuildDrone.init p θ visR wR maxV maxA accu)) (ins k)
      (by rw [hm.1]; exact hV) (by rw [hm.2]; exact hA)
    rw [hm.1, hm.2] at h
    exact h

/-- Witness for C5: a drone initialized with heading 0 and unit bounds. -/
theorem c5_witness :
    (0 : ℝ) ≤ 1 ∧
    rnorm ((RebuildDrone.stepN (fun _ => ⟨100, 100, 1, (0, 0), (0, 0), (0, 0), (0, 0), (0, 0), []⟩)
      0 (RebuildDrone.init (0, 0) 0 500 100 1 1 (9/10))).velocity) ≤ 1 :=
  ⟨by norm_num,
    (c5_kinematic_clamps (0, 0) 0 500 100 1 1 (9/10) (by norm_num) (by norm_num)
      (fun _ => ⟨100, 100, 1, (0, 0), (0, 0), (0, 0), (0, 0), (0, 0), []⟩) 0).1⟩

/-! ### C2 — firing is terminal -/

namespace RebuildDrone

theorem fire_of_retreating (d : Drone) (ns : List Agent) (h : d.state = DState.retreating) :
    fire d ns = (d, false) := by
  rw [fire, if_pos h]

theorem step_of_retreating (d : Drone) (i : RInput) (h : d.state = DState.retreating) :
    (step d i).1.state = DState.retreating ∧ (step d i).2 = false := by
  have h3 : (update_velocity (update_acceleration (update_position d i.W i.H i.dt)
      i.s0 i.s1 i.s2 i.s3 i.s4) i.dt).state = DState.retreating := h
  show ((fire (update_velocity (update_acceleration (update_position d i.W i.H i.dt)
      i.s0 i.s1 i.s2 i.s3 i.s4) i.dt) i.neighbors).1.state = DState.retreating ∧
    (fire (update_velocity (update_acceleration (update_position d i.W i.H i.dt)
      i.s0 i.s1 i.s2 i.s3 i.s4) i.dt) i.neighbors).2 = false)
  rw [fire_of_retreating _ _ h3]
  exact ⟨h3, rfl⟩

theorem stepN_retreating (ins : ℕ → RInput) (n : ℕ) (d : Drone)
    (h : d.state = DState.retreating) : (stepN ins n d).state = DState.retreating := by
  induction n with
  | zero => exact h
  | succ k ih => exact (step_of_retreating (stepN ins k d) (ins k) ih).1

end RebuildDrone

/-- C2: when a flocking drone executes a fire attempt against a target in
range, the shot is taken (independently of the probabilistic hit outcome,
which only affects the target), the drone's state becomes Retreating on that
tick, it remains Retreating on every subsequent tick, and on no subsequent
tick does its step take another shot. -/
theorem c2_single_shot_then_retreat (d : RebuildDrone.Drone) (ns : List Agent) (t : Agent)
    (harmed : d.state ≠ RebuildDrone.DState.retreating)
    (hnear : RebuildDrone.get_nearest_target d.pos ns = some t)
    (hrange : RebuildDrone.target_distance d (Agent.apos t) ≤ d.weapon_radius) :
    (RebuildDrone.fire d ns).2 = true ∧
    (RebuildDrone.fire d ns).1.state = RebuildDrone.DState.retreating ∧
    (∀ ins n, (RebuildDrone.stepN ins n (RebuildDrone.fire d ns).1).state
        = RebuildDrone.DState.retreating) ∧
    (∀ ins n, (RebuildDrone.step (RebuildDrone.stepN ins n (RebuildDrone.fire d ns).1)
        (ins n)).2 = false) := by
  have hfire : RebuildDrone.fire d ns
      = ({ d with state := RebuildDrone.DState.retreating }, true) := by
    rw [RebuildDrone.fire, if_neg harmed, hnear]
    exact if_neg (not_lt.mpr hrange)
  refine ⟨by rw [hfire], by rw [hfire], ?_, ?_⟩
  · intro ins n
    rw [hfire]
    exact RebuildDrone.stepN_retreating ins n _ rfl
  · intro ins n
    rw [hfire]
    exact (RebuildDrone.step_of_retreating _ (ins n)
      (RebuildDrone.stepN_retreating ins n _ rfl)).2

/-- Witness for C2: a flocking drone with a living target 10 m away and a
100 m weapon radius. -/
theorem c2_witness :
    (RebuildDrone.fire
      { pos := (0, 0), velocity := (0, 0), acceleration := (0, 0),
        state := RebuildDrone.DState.flocking, vis_radius := 500, weapon_radius := 100,
        max_velocity := 27, max_acceleration := 20, accuracy := 9/10 }
      [Agent.targetA (10, 0) TState.alive]).2 = true ∧
    (RebuildDrone.fire
      { pos := (0, 0), velocity := (0, 0), acceleration := (0, 0),
        state := RebuildDrone.DState.flocking, vis_radius := 500, weapon_radius := 100,
        max_velocity := 27, max_acceleration := 20, accuracy := 9/10 }
      [Agent.targetA (10, 0) TState.alive]).1.state = RebuildDrone.DState.retreating := by
  have h := c2_single_shot_then_retreat
    { pos := (0, 0), velocity := (0, 0), acceleration := (0, 0),
      state := RebuildDrone.DState.flocking, vis_radius := 500, weapon_radius := 100,
      max_velocity := 27, max_acceleration := 20, accuracy := 9/10 }
    [Agent.targetA (10, 0) TState.alive] (Agent.targetA (10, 0) TState.alive)
    (by intro hcon; exact RebuildDrone.DState.noConfusion hcon)
    rfl
    (by norm_num [RebuildDrone.target_distance, Agent.apos, sqrt_100])
  exact ⟨h.1, h.2.1⟩

/-! ### C3 — boundary exit -/

/-- C3: if the candidate position `pos + dt * velocity` lies outside the
domain bounds, update_position transitions the drone to the terminal
"returned" state without moving it, and the same step then removes the drone
and increments the returned counter; otherwise the drone moves to the
candidate position. -/
theorem c3_boundary_exit (d : SwarmDrone.Drone) (i : SwarmDrone.SInput) :
    (SwarmDrone.outOfBounds i.W i.H (SwarmDrone.next_position d i.dt) →
      (SwarmDrone.update_position d i.W i.H i.dt).state = SwarmDrone.DState.returned ∧
      (SwarmDrone.update_position d i.W i.H i.dt).pos = d.pos ∧
      (SwarmDrone.step d i).1 = none ∧ (SwarmDrone.step d i).2 = true) ∧
    (¬ SwarmDrone.outOfBounds i.W i.H (SwarmDrone.next_position d i.dt) →
      (SwarmDrone.update_position d i.W i.H i.dt).pos = SwarmDrone.next_position d i.dt ∧
      (SwarmDrone.update_position d i.W i.H i.dt).state = d.state) := by
  constructor
  · intro h
    have hup : SwarmDrone.update_position d i.W i.H i.dt
        = { d with state := SwarmDrone.DState.returned } := by
      rw [SwarmDrone.update_position, if_pos h]
    have hstep : SwarmDrone.step d i = (none, true) := by
      rw [SwarmDrone.step]
      simp only [hup]
      simp
    exact ⟨by rw [hup], by rw [hup], by rw [hstep], by rw [hstep]⟩
  · intro h
    have hup : SwarmDrone.update_position d i.W i.H i.dt
        = { d with pos := SwarmDrone.next_position d i.dt } := by
      rw [SwarmDrone.update_position, if_neg h]
    exact ⟨by rw [hup], by rw [hup]⟩

/-- Witness for C3: a drone at (95, 50) moving right at 10 m/s in a
100 × 100 domain exits through the right boundary and is removed. -/
theorem c3_witness :
    (SwarmDrone.step
      { pos := (95, 50), velocity := (10, 0), acceleration := (0, 0),
        state := SwarmDrone.DState.flocking, w0 := 1, w1 := 7/10, w2 := 21/20, w3 := 6/5,
        w4 := 1, vis_range := 100, weapon_range := 100, max_accuracy := 9/10,
        max_velocity := 50, max_acceleration := 50 }
      ⟨100, 100, 1, (0, 0), (0, 0), (0, 0), (0, 0), (0, 0), (50, 5)⟩).1 = none ∧
    (SwarmDrone.step
      { pos := (95, 50), velocity := (10, 0), acceleration := (0, 0),
        state := SwarmDrone.DState.flocking, w0 := 1, w1 := 7/10, w2 := 21/20, w3 := 6/5,
        w4 := 1, vis_range := 100, weapon_range := 100, max_accuracy := 9/10,
        max_velocity := 50, max_acceleration := 50 }
      ⟨100, 100, 1, (0, 0), (0, 0), (0, 0), (0, 0), (0, 0), (50, 5)⟩).2 = true := by
  have h := (c3_boundary_exit
    { pos := (95, 50), velocity := (10, 0), acceleration := (0, 0),
      state := SwarmDrone.DState.flocking, w0 := 1, w1 := 7/10, w2 := 21/20, w3 := 6/5,
      w4 := 1, vis_range := 100, weapon_range := 100, max_accuracy := 9/10,
      max_velocity := 50, max_acceleration := 50 }
    ⟨100, 100, 1, (0, 0), (0, 0), (0, 0), (0, 0), (0, 0), (50, 5)⟩).1
    (Or.inl (by norm_num [SwarmDrone.next_position]))
  exact ⟨h.2.2.1, h.2.2.2⟩

/-! ### C6 — retreat flips the steering weights -/

namespace SwarmDrone

theorem fire_noop_when_retreating (d : Drone) (tp : ℝ × ℝ) (h : d.state = DState.retreating) :
    fire d tp = (d, false) := by
  rw [fire, if_pos h]

theorem step_preserves_retreat (d : Drone) (i : SInput) (hst : d.state = DState.retreating)
    (x : Drone) (hx : (step d i).1 = some x) :
    x.state = DState.retreating ∧ x.w3 = d.w3 ∧ x.w4 = d.w4 := by
  by_cases hb : outOfBounds i.W i.H (next_position d i.dt)
  · exfalso
    have hup : update_position d i.W i.H i.dt = { d with state := DState.returned } := by
      rw [update_position, if_pos hb]
    rw [step] at hx
    simp only [hup] at hx
    simp at hx
  · have hup : update_position d i.W i.H i.dt = { d with pos := next_position d i.dt } := by
      rw [update_position, if_neg hb]
    rw [step] at hx
    simp only [hup] at hx
    rw [if_neg (by rw [hst]; exact fun hc => DState.noConfusion hc)] at hx
    have hfire := fire_noop_when_retreating
      (update_velocity (update_acceleration { d with pos := next_position d i.dt }
        i.s0 i.s1 i.s2 i.s3 i.s4) i.dt) i.targetPos hst
    rw [hfire] at hx
    injection hx with hx
    subst hx
    exact ⟨hst, rfl, rfl⟩

theorem stepN_preserves_retreat (ins : ℕ → SInput) (n : ℕ) (d : Drone)
    (hst : d.state = DState.retreating) (x : Drone) (hx : stepN ins n d = some x) :
    x.state = DState.retreating ∧ x.w3 = d.w3 ∧ x.w4 = d.w4 := by
  induction n generalizing x with
  | zero =>
    injection hx with hx
    subst hx
    exact ⟨hst, rfl, rfl⟩
  | succ k ih =>
    rw [stepN] at hx
    rcases hk : stepN ins k d with _ | y
    · rw [hk] at hx
      exact Option.noConfusion hx
    · rw [hk] at hx
      obtain ⟨hy1, hy2, hy3⟩ := ih y hk
      obtain ⟨hx1, hx2, hx3⟩ := step_preserves_retreat y (ins k) hy1 x hx
      exact ⟨hx1, hx2.trans hy2, hx3.trans hy3⟩

end SwarmDrone

/-- C6: when a flocking drone fires at the target in range, its
edge-avoidance and target-seeking weights are negated at the transition to
Retreating, and on every subsequent tick on which the drone still exists its
state is still Retreating and both weights still carry the flipped sign. -/
theorem c6_retreat_flips_weights (d : SwarmDrone.Drone) (tp : ℝ × ℝ)
    (hst : d.state = SwarmDrone.DState.flocking)
    (hrange : rnorm (tp.1 - d.pos.1, tp.2 - d.pos.2) ≤ d.weapon_range) :
    (SwarmDrone.fire d tp).1.state = SwarmDrone.DState.retreating ∧
    (SwarmDrone.fire d tp).1.w3 = -d.w3 ∧ (SwarmDrone.fire d tp).1.w4 = -d.w4 ∧
    ∀ ins n x, SwarmDrone.stepN ins n (SwarmDrone.fire d tp).1 = some x →
      x.state = SwarmDrone.DState.retreating ∧ x.w3 = -d.w3 ∧ x.w4 = -d.w4 := by
  have hfire : SwarmDrone.fire d tp
      = ({ d with w3 := -d.w3, w4 := -d.w4, state := SwarmDrone.DState.retreating }, true) := by
    rw [SwarmDrone.fire, if_neg (by rw [hst]; exact fun hc => SwarmDrone.DState.noConfusion hc)]
    exact if_neg (not_lt.mpr hrange)
  refine ⟨by rw [hfire], by rw [hfire], by rw [hfire], ?_⟩
  intro ins n x hx
  rw [hfire] at hx
  exact SwarmDrone.stepN_preserves_retreat ins n _ rfl x hx

/-- Witness for C6: a flocking drone with the default weights fires at a
target 10 m away; weights 3 and 4 come out negated. -/
theorem c6_witness :
    (SwarmDrone.fire
      { pos := (0, 0), velocity := (0, 0), acceleration := (0, 0),
        state := SwarmDrone.DState.flocking, w0 := 1, w1 := 7/10, w2 := 21/20, w3 := 6/5,
        w4 := 1, vis_range := 100, weapon_range := 100, max_accuracy := 9/10,
        max_velocity := 50, max_acceleration := 50 }
      (10, 0)).1.state = SwarmDrone.DState.retreating ∧
    (SwarmDrone.fire
      { pos := (0, 0), velocity := (0, 0), acceleration := (0, 0),
        state := SwarmDrone.DState.flocking, w0 := 1, w1 := 7/10, w2 := 21/20, w3 := 6/5,
        w4 := 1, vis_range := 100, weapon_range := 100, max_accuracy := 9/10,
        max_velocity := 50, max_acceleration := 50 }
      (10, 0)).1.w3 = -(6/5) := by
  have h := c6_retreat_flips_weights
    { pos := (0, 0), velocity := (0, 0), acceleration := (0, 0),
      state := SwarmDrone.DState.flocking, w0 := 1, w1 := 7/10, w2 := 21/20, w3 := 6/5,
      w4 := 1, vis_range := 100, weapon_range := 100, max_accuracy := 9/10,
      max_velocity := 50, max_acceleration := 50 }
    (10, 0) rfl (by norm_num [rnorm, sqrt_100])
  exact ⟨h.1, h.2.1⟩

/-! ### C1 — dead targets and Target.fire -/

/-- C1, evaluated at the failing input: a dead target whose cooldown has
expired, with one drone 10 m away (inside the 400 m weapon range, dead ahead
of the weapon orientation).  `Target.fire` has no dead-state guard — unlike
`Target.move` — so the dead target kills the drone and resets its cooldown
to fire_cooldown. -/
theorem c1_dead_target_still_fires :
    (RebuildTarget.fire
      { pos := (0, 0), direction := 0, time_until_fire := 0, state := TState.dead,
        vis_radius := 1000, weapon_range := 400, fire_cooldown := 2, omega_max := 45 }
      [Agent.droneA (10, 0) (0, 0)] 1).2 = true ∧
    (RebuildTarget.fire
      { pos := (0, 0), direction := 0, time_until_fire := 0, state := TState.dead,
        vis_radius := 1000, weapon_range := 400, fire_cooldown := 2, omega_max := 45 }
      [Agent.droneA (10, 0) (0, 0)] 1).1.time_until_fire = 2 := by
  constructor <;>
    norm_num [RebuildTarget.fire, RebuildTarget.get_nearest_drone, RebuildTarget.drones_only,
      firstMinBy, atan2, Agent.apos, sqrt_100, Real.arctan_zero]

/-! ### C4 — the tracking turn rule -/

/-- C4 counterexample: a living target with orientation 10 rad, maximum turn
rate omega_max = 1/2, dt = 1, and the nearest drone at bearing 0.  The claim
demands a rotation by −omega_max·dt (to 19/2, since |Δθ| = 10 > 1/2), but the
code's signed comparison (−10 ≤ 1/2) snaps the orientation straight to 0. -/
theorem c4_counterexample :
    (RebuildTarget.move
      { pos := (0, 0), direction := 10, time_until_fire := 5, state := TState.alive,
        vis_radius := 1000, weapon_range := 400, fire_cooldown := 2, omega_max := 1/2 }
      [Agent.droneA (1, 0) (0, 0)] 1).direction = 0 ∧
    trackSpec 10 (1/2) 1 0 = 19/2 ∧ ((0 : ℝ) ≠ 19/2) := by
  refine ⟨?_, ?_, by norm_num⟩
  · norm_num [RebuildTarget.move, RebuildTarget.get_nearest_drone, RebuildTarget.drones_only,
      firstMinBy, atan2, Agent.apos, Real.arctan_zero]
    rw [if_neg (fun hc => TState.noConfusion hc)]
  · norm_num [trackSpec, abs_of_nonpos]

/-- C4 (amended): for a living target with a visible nearest drone, the code
compares the signed angular delta — not its absolute value — against the
reachable turn: if `Δθ ≤ ω_max·dt` (so also for arbitrarily large negative
deltas) the orientation is set exactly to the bearing, and otherwise
(`Δθ > ω_max·dt`) the orientation increases by exactly `+ω_max·dt`,
regardless of the direction of the bearing. -/
theorem c4_track_is_signed (t : RebuildTarget.Target) (ns : List Agent) (dt : ℝ) (nd : Agent)
    (halive : t.state ≠ TState.dead)
    (hnear : RebuildTarget.get_nearest_drone t.pos ns = some nd)
    (hdt : 0 < dt) :
    (atan2 ((Agent.apos nd).2 - t.pos.2) ((Agent.apos nd).1 - t.pos.1) - t.direction
        ≤ t.omega_max * dt →
      (RebuildTarget.move t ns dt).direction
        = atan2 ((Agent.apos nd).2 - t.pos.2) ((Agent.apos nd).1 - t.pos.1)) ∧
    (t.omega_max * dt
        < atan2 ((Agent.apos nd).2 - t.pos.2) ((Agent.apos nd).1 - t.pos.1) - t.direction →
      (RebuildTarget.move t ns dt).direction = t.direction + t.omega_max * dt) := by
  have hmv : RebuildTarget.move t ns dt
      = (if (atan2 ((Agent.apos nd).2 - t.pos.2) ((Agent.apos nd).1 - t.pos.1)
            - t.direction) / dt ≤ t.omega_max
         then { t with direction :=
                  atan2 ((Agent.apos nd).2 - t.pos.2) ((Agent.apos nd).1 - t.pos.1) }
         else { t with direction := t.direction + t.omega_max * dt }) := by
    rw [RebuildTarget.move, if_neg halive, hnear]
  constructor
  · intro h
    rw [hmv, if_pos ((div_le_iff₀ hdt).mpr h)]
  · intro h
    rw [hmv, if_neg (fun hc => absurd ((div_le_iff₀ hdt).mp hc) (not_le.mpr h))]

/-- Witness for C4 (amended): a target pointing at bearing 0 with the drone
dead ahead snaps to the bearing. -/
theorem c4_witness :
    (RebuildTarget.move
      { pos := (0, 0), direction := 0, time_until_fire := 5, state := TState.alive,
        vis_radius := 1000, weapon_range := 400, fire_cooldown := 2, omega_max := 1/2 }
      [Agent.droneA (1, 0) (0, 0)] 1).direction
      = atan2 ((Agent.apos (Agent.droneA (1, 0) (0, 0))).2 - 0)
          ((Agent.apos (Agent.droneA (1, 0) (0, 0))).1 - 0) := by
  have h := (c4_track_is_signed
    { pos := (0, 0), direction := 0, time_until_fire := 5, state := TState.alive,
      vis_radius := 1000, weapon_range := 400, fire_cooldown := 2, omega_max := 1/2 }
    [Agent.droneA (1, 0) (0, 0)] 1 (Agent.droneA (1, 0) (0, 0))
    (fun hc => TState.noConfusion hc) rfl (by norm_num)).1
    (by norm_num [atan2, Agent.apos, Real.arctan_zero])
  exact h

end
